import Mathlib

/-!
Verification development for the real-time delivery core of the repository:
the parent-notification connection registry and broadcaster
(backend/app/services/notification_service.py), the WebRTC signaling relay
(backend/app/api/webrtc_signaling.py), and the alert-severity pipeline
(backend/app/services/safety_service.py with the classifier fallback of
backend/app/services/llm_service.py).

Modelling conventions:
* a WebSocket connection is identified by a natural number;
* a Python set of connections is modelled as a list in iteration order;
* a Python dict is modelled either as a function into Option (the registry,
  keyed by recipient id) or as an association list (the signaling role maps,
  where dict emptiness is tested by the code);
* an awaited send is recorded as an output event; whether a given send
  raises is abstracted by a failure predicate where the code catches it;
* timestamps are omitted (real time), and the free-text LLM assessment of
  an alert is passed in as an abstract string parameter.
-/

/-- A WebSocket connection, identified by a number. -/
abbrev Conn := Nat

/-! ## Connection registry (NotificationService, notification_service.py)

`active_connections : Dict[str, Set[WebSocket]]` is modelled as a function
from recipient id to an optional bucket; `none` means the key is absent. -/

/-- The registry `self.active_connections`. -/
abbrev Registry := String → Option (List Conn)

/-- The bucket registered for a recipient, empty when the key is absent.
Used to state which connections a broadcast can see. -/
def connectionsFor (reg : Registry) (pid : String) : List Conn :=
  (reg pid).getD []

/-- `NotificationService.disconnect` (notification_service.py lines 37-52):
if the recipient has a bucket, discard the connection from it and delete
the bucket if it became empty.  No code path raises. -/
def nsDisconnect (reg : Registry) (pid : String) (ws : Conn) : Registry :=
  match reg pid with
  | none => reg
  | some conns =>
      let conns2 := conns.filter (fun c => c ≠ ws)
      fun q => if q = pid then (if conns2.isEmpty then none else some conns2) else reg q

/-- The fan-out loop of `notify_parent` (lines 77-84): each connection in
the bucket gets a send attempt inside try/except; successes are delivered,
failures are collected into `disconnected`.  Returns
(delivered connections, failed connections), both in iteration order. -/
def fanOut (fails : Conn → Bool) : List Conn → List Conn × List Conn
  | [] => ([], [])
  | ws :: rest =>
      let (d, f) := fanOut fails rest
      if fails ws then (d, ws :: f) else (ws :: d, f)

/-- Result of a broadcast: the registry after cleanup, the connections a
send was attempted to, and the connections whose send succeeded. -/
structure BroadcastResult where
  registry : Registry
  attempted : List Conn
  delivered : List Conn

/-- `NotificationService.notify_parent` (lines 54-88): if the recipient has
no bucket, return at once; otherwise attempt a send of the alert payload to
every connection in the bucket, collect the failures, and only after the
loop call `disconnect` for each failed connection. -/
def notifyParent (reg : Registry) (pid : String) (fails : Conn → Bool) : BroadcastResult :=
  match reg pid with
  | none => ⟨reg, [], []⟩
  | some conns =>
      let df := fanOut fails conns
      ⟨df.2.foldl (fun r ws => nsDisconnect r pid ws) reg, conns, df.1⟩

/-! ## WebRTC signaling relay (webrtc_signaling.py)

`self.connections : Dict[str, Dict[str, WebSocket]]` is modelled as an
association list from session id to an association list from role string
to connection, since the code tests the inner dict for emptiness. -/

/-- Lookup in an association list (first occurrence, like a dict). -/
def alGet {α : Type} : List (String × α) → String → Option α
  | [], _ => none
  | (k, v) :: rest, key => if k = key then some v else alGet rest key

/-- Update-or-insert in an association list (dict assignment). -/
def alSet {α : Type} : List (String × α) → String → α → List (String × α)
  | [], key, v => [(key, v)]
  | (k, w) :: rest, key, v =>
      if k = key then (key, v) :: rest else (k, w) :: alSet rest key v

/-- Deletion from an association list (dict `del`, a no-op when absent,
matching the guarded `del` in the code). -/
def alDel {α : Type} (m : List (String × α)) (key : String) : List (String × α) :=
  m.filter (fun p => p.1 ≠ key)

/-- The role map of one signaling session. -/
abbrev RoleMap := List (String × Conn)

/-- The signaling service state `self.connections`. -/
abbrev SigConns := List (String × RoleMap)

/-- The connection bound to a role slot of a session, if any. -/
def roleSlot (s : SigConns) (sid role : String) : Option Conn :=
  (alGet s sid).bind (fun rm => alGet rm role)

/-- `WebRTCSignalingService.connect_child` (lines 33-41): first
`await websocket.accept()`, then create the session entry if absent and
bind the child slot.  In Starlette a second accept on an
already-accepted socket raises RuntimeError (its send state machine only
allows websocket.send or websocket.close once connected), and the raise
happens before the slot assignment, so the map is untouched: that
outcome is the error case.  The endpoint always reaches this call with
a socket it already accepted at line 113, hence with
`alreadyAccepted = true`. -/
def connectChild (alreadyAccepted : Bool) (s : SigConns) (sid : String) (ws : Conn) :
    Except Unit SigConns :=
  if alreadyAccepted then Except.error ()
  else Except.ok (alSet s sid (alSet ((alGet s sid).getD []) "child" ws))

/-- `WebRTCSignalingService.connect_parent` (lines 43-51): first
`await websocket.accept()`, then create the session entry if absent and
bind the parent slot; like `connectChild`, on an already-accepted socket
the second accept raises before the slot assignment. -/
def connectParent (alreadyAccepted : Bool) (s : SigConns) (sid : String) (ws : Conn) :
    Except Unit SigConns :=
  if alreadyAccepted then Except.error ()
  else Except.ok (alSet s sid (alSet ((alGet s sid).getD []) "parent" ws))

/-- `WebRTCSignalingService.disconnect` (lines 53-63): delete the role key
of the session if present, then delete the session entry if its role map
became empty. -/
def sigDisconnect (s : SigConns) (sid role : String) : SigConns :=
  match alGet s sid with
  | none => s
  | some rm =>
      let rm2 := alDel rm role
      if rm2.isEmpty then alDel s sid else alSet s sid rm2

/-- A signaling message: `message.get('type')` and the optional explicit
`role` field. -/
structure Msg where
  type : Option String
  role : Option String
deriving DecidableEq

/-- `WebRTCSignalingService.relay_message` (lines 65-91): compute the
opposite role, and if the session and that slot exist, send the message to
it (the send is recorded as an output; a send failure is caught and
changes nothing). -/
def relayMessage (s : SigConns) (sid fromRole : String) (m : Msg) : List (Conn × Msg) :=
  let toRole := if fromRole = "child" then "parent" else "child"
  match alGet s sid with
  | none => []
  | some rm =>
      match alGet rm toRole with
      | none => []
      | some w => [(w, m)]

/-- Python truthiness of the `role` variable of the endpoint handler:
falsy when it is None or the empty string. -/
def truthyRole : Option String → Bool
  | none => false
  | some s => !(s == "")

/-- The call-ended notification of the endpoint (lines 154-161): if the
session exists and the other role is bound, send it a call-ended message
(the send is inside try/except pass, so it is recorded as an attempt and
a failure changes nothing). -/
def ceNotify (s : SigConns) (sid other : String) : List (Conn × Msg) :=
  match alGet s sid with
  | none => []
  | some rm =>
      match alGet rm other with
      | none => []
      | some pw => [(pw, Msg.mk (some "call-ended") none)]

/-- One iteration of the read loop of `webrtc_signaling_endpoint`
(lines 119-169) for an inbound message: role determination from the first
message, then relay / call-ended / heartbeat handling.  The role variable
is assigned before the awaited connect call, and since the endpoint has
already accepted the socket at line 113 that call raises RuntimeError
inside its second `websocket.accept()`; the exception escapes the while
loop (it is caught at line 174) with the shared map untouched, so a
binding message terminates the loop with no output and no state change.
Returns the new role variable, the new shared state, the outputs sent,
and whether the loop terminated (by break or by the escaping exception). -/
def handlerStep (ws : Conn) (sid : String) (role : Option String) (s : SigConns)
    (m : Msg) : Option String × SigConns × List (Conn × Msg) × Bool :=
  let mt := m.type
  let rs : Option String × Except Unit SigConns :=
    if role = none then
      if mt = some "offer" then (some "child", connectChild true s sid ws)
      else if mt = some "answer" then (some "parent", connectParent true s sid ws)
      else
        match m.role with
        | some r => if r = "child" then (some r, connectChild true s sid ws)
                    else (some r, connectParent true s sid ws)
        | none => (role, Except.ok s)
    else (role, Except.ok s)
  let role2 := rs.1
  match rs.2 with
  | Except.error _ => (role2, s, [], true)
  | Except.ok s2 =>
      if truthyRole role2 = true ∧
          (mt = some "offer" ∨ mt = some "answer" ∨ mt = some "ice-candidate") then
        (role2, s2, relayMessage s2 sid (role2.getD "") m, false)
      else if mt = some "call-ended" then
        let other := if role2 = some "child" then "parent" else "child"
        (role2, s2, ceNotify s2 sid other, true)
      else if mt = some "heartbeat" then
        (role2, s2, [(ws, Msg.mk (some "heartbeat-ack") none)], false)
      else
        (role2, s2, [], false)

/-- The read loop of the endpoint over a list of inbound messages; the list
ending models the client disconnecting. -/
def runLoop (ws : Conn) (sid : String) :
    Option String → SigConns → List Msg → Option String × SigConns × List (Conn × Msg)
  | role, s, [] => (role, s, [])
  | role, s, m :: ms =>
      let st := handlerStep ws sid role s m
      if st.2.2.2 then (st.1, st.2.1, st.2.2.1)
      else
        let rest := runLoop ws sid st.1 st.2.1 ms
        (rest.1, rest.2.1, st.2.2.1 ++ rest.2.2)

/-- Outcome of one full run of `webrtc_signaling_endpoint` for one client. -/
structure HandlerRun where
  finalRole : Option String
  state : SigConns
  sent : List (Conn × Msg)
deriving DecidableEq

/-- `webrtc_signaling_endpoint` (lines 99-180): run the read loop on the
inbound messages, then the `finally` cleanup, which calls `disconnect`
for the role only when the role variable is truthy. -/
def runHandler (ws : Conn) (sid : String) (role0 : Option String) (s0 : SigConns)
    (msgs : List Msg) : HandlerRun :=
  let r := runLoop ws sid role0 s0 msgs
  let sFinal := if truthyRole r.1 = true then sigDisconnect r.2.1 sid (r.1.getD "") else r.2.1
  ⟨r.1, sFinal, r.2.2⟩

/-! ## Alert severity pipeline (safety_service.py, llm_service.py) -/

/-- Alert severity levels (models/alert.py): info, warning, urgent,
emergency. -/
inductive AlertLevel
  | info
  | warning
  | urgent
  | emergency
deriving DecidableEq

/-- Numeric rank of a severity level, for the order
info < warning < urgent < emergency. -/
def AlertLevel.rank : AlertLevel → Nat
  | .info => 0
  | .warning => 1
  | .urgent => 2
  | .emergency => 3

/-- The dictionary returned by the safety classifier; each field is
optional, matching dict.get with a default at each use site. -/
structure SafetyAnalysis where
  is_safe : Option Bool
  concern_level : Option String
  reason : Option String
  parent_alert : Option Bool
  recommended_response : Option String
deriving DecidableEq

/-- The fallback dict returned by `LLMService.analyze_safety` when JSON
parsing of the classifier response fails (llm_service.py lines 381-387). -/
def jsonFallback : SafetyAnalysis :=
  ⟨some true, some "none", some "Unable to parse safety analysis", some false,
    some "I\x27m here to help! What would you like to do?"⟩

/-- The fallback dict returned by `LLMService.analyze_safety` when the
classifier call itself raises (llm_service.py lines 389-406). -/
def errorFallback : SafetyAnalysis :=
  ⟨some true, some "none", some "Safety analysis unavailable", some false,
    some "I\x27m here to help! What would you like to do?"⟩

/-- Outcome of the external classifier call: a parsed dictionary, a JSON
parse failure, or the call raising. -/
inductive ClassifierOutcome
  | ok (data : SafetyAnalysis)
  | parseFailure
  | callFailure
deriving DecidableEq

/-- Whether the classifier call failed in either way. -/
def ClassifierOutcome.failed : ClassifierOutcome → Bool
  | .ok _ => false
  | .parseFailure => true
  | .callFailure => true

/-- `LLMService.analyze_safety` (llm_service.py lines 310-406): return the
parsed dictionary on success and the safe default on either failure; all
exceptions are absorbed, so the function is total. -/
def analyzeSafety : ClassifierOutcome → SafetyAnalysis
  | .ok d => d
  | .parseFailure => jsonFallback
  | .callFailure => errorFallback

/-- `SafetyService.CONCERN_KEYWORDS` (safety_service.py lines 19-23). -/
def CONCERN_KEYWORDS : List String :=
  ["hurt", "pain", "bleeding", "fell", "sick", "scared", "afraid",
   "stranger", "alone", "help", "emergency", "broken", "fire",
   "blood", "crying", "can\x27t breathe", "chest pain", "dizzy"]

/-- `SafetyService.URGENT_KEYWORDS` (safety_service.py lines 25-28). -/
def URGENT_KEYWORDS : List String :=
  ["emergency", "911", "can\x27t breathe", "chest pain", "bleeding badly",
   "unconscious", "fire", "smoke", "poison", "overdose"]

/-- Whether one character list starts with another. -/
def listStarts : List Char → List Char → Bool
  | [], _ => true
  | _ :: _, [] => false
  | a :: as, b :: bs => a = b && listStarts as bs

/-- Whether a character list occurs contiguously inside another. -/
def listSub (sub : List Char) : List Char → Bool
  | [] => listStarts sub []
  | c :: cs => listStarts sub (c :: cs) || listSub sub cs

/-- Python substring membership `kw in s`. -/
def strContains (s kw : String) : Bool :=
  listSub kw.data s.data

/-- Python `str.lower()` at the ASCII level used by the keyword lists. -/
def strLower (s : String) : String :=
  String.mk (s.data.map Char.toLower)

/-- The urgent-keyword check of `assess_message_safety` (line 63), applied
to the lowercased message. -/
def hasUrgentKeyword (messageLower : String) : Bool :=
  URGENT_KEYWORDS.any (fun kw => strContains messageLower kw)

/-- The concern-keyword check of `assess_message_safety` (line 64), applied
to the lowercased message. -/
def hasConcernKeyword (messageLower : String) : Bool :=
  CONCERN_KEYWORDS.any (fun kw => strContains messageLower kw)

/-- `SafetyService._determine_alert_level` (safety_service.py lines
315-347): first-match-wins mapping from the keyword flags and the concern
level string to a severity. -/
def determineAlertLevel (sa : SafetyAnalysis) (hasUrgent hasConcern : Bool) : AlertLevel :=
  let concernLevel := sa.concern_level.getD "none"
  if hasUrgent = true ∨ concernLevel = "critical" then .emergency
  else if concernLevel = "high" then .urgent
  else if concernLevel = "medium" ∨ hasConcern = true then .warning
  else if concernLevel = "low" then .info
  else .info

/-- The severity mapping as the specification states it, bullet for
bullet: urgent keyword or critical gives emergency; else high gives
urgent; else medium or a concern keyword gives warning; else low gives
info; otherwise info.  Written from the wording of the spec, to be
compared with `determineAlertLevel`. -/
def severityMapSpec (urgentKw concernKw : Bool) (concernLevel : String) : AlertLevel :=
  if urgentKw = true ∨ concernLevel = "critical" then .emergency
  else if concernLevel = "high" then .urgent
  else if concernLevel = "medium" ∨ concernKw = true then .warning
  else if concernLevel = "low" then .info
  else .info

/-- A safety alert (models/alert.py `SafetyAlert`); the timestamp field is
omitted (real time). -/
structure SafetyAlert where
  level : AlertLevel
  message : String
  context : String
  ai_assessment : String
  requires_action : Bool
deriving DecidableEq

/-- The dictionary returned by `assess_message_safety`. -/
structure SafetyAssessment where
  is_safe : Bool
  concern_level : String
  alert : Option SafetyAlert
  recommended_response : Option String
  requires_parent_notification : Bool
deriving DecidableEq

/-- `SafetyService.assess_message_safety` (safety_service.py lines
30-167): lowercase the message, run both keyword checks, run the
classifier (whose outcome, including failures, is the `outcome`
parameter), map to a severity, and instantiate an alert exactly when the
classifier requested a parent alert or the severity is not info.  The
free-text contextual assessment is the abstract `aiAssessment` parameter. -/
def assessMessageSafety (message : String) (outcome : ClassifierOutcome)
    (aiAssessment : String) : SafetyAssessment :=
  let messageLower := strLower message
  let hasUrgent := hasUrgentKeyword messageLower
  let hasConcern := hasConcernKeyword messageLower
  let sa := analyzeSafety outcome
  let alertLevel := determineAlertLevel sa hasUrgent hasConcern
  let alert : Option SafetyAlert :=
    if sa.parent_alert = some true ∨ alertLevel ≠ .info then
      some { level := alertLevel,
             message := "Child said: \x27" ++ message ++ "\x27",
             context := sa.reason.getD "Safety check triggered",
             ai_assessment := aiAssessment,
             requires_action := decide (alertLevel = .urgent ∨ alertLevel = .emergency) }
    else none
  { is_safe := sa.is_safe.getD true,
    concern_level := sa.concern_level.getD "none",
    alert := alert,
    recommended_response := sa.recommended_response,
    requires_parent_notification := alert.isSome }

/-- The five concern levels the specification orders:
none < low < medium < high < critical. -/
inductive ConcernLevel
  | cnone
  | low
  | medium
  | high
  | critical
deriving DecidableEq, Fintype

/-- The string the classifier uses for each concern level. -/
def ConcernLevel.toStr : ConcernLevel → String
  | .cnone => "none"
  | .low => "low"
  | .medium => "medium"
  | .high => "high"
  | .critical => "critical"

/-- Numeric rank of a concern level, for the order
none < low < medium < high < critical. -/
def ConcernLevel.rank : ConcernLevel → Nat
  | .cnone => 0
  | .low => 1
  | .medium => 2
  | .high => 3
  | .critical => 4

/-! ## Concrete instances used by the witness theorems -/

/-- A registry with two connections registered for recipient p1. -/
def regW1 : Registry := fun q => if q = "p1" then some [1, 2] else none

/-- The empty registry. -/
def regEmpty : Registry := fun _ => none

/-- A send-failure predicate under which only connection 1 fails. -/
def failsW1 : Conn → Bool := fun c => c == 1

/-- A successful classifier outcome that requests a parent alert while
reporting no concern. -/
def okParentAlert : ClassifierOutcome :=
  .ok ⟨some true, some "none", none, some true, some "ok"⟩

/-! ## Lemmas about the registry and broadcaster -/

theorem fanOut_fst (fails : Conn → Bool) (l : List Conn) :
    (fanOut fails l).1 = l.filter (fun c => !(fails c)) := by
  induction l with
  | nil => rfl
  | cons ws rest ih =>
      simp only [fanOut, List.filter_cons]
      cases h : fails ws <;> simp [h, ih]

theorem fanOut_snd (fails : Conn → Bool) (l : List Conn) :
    (fanOut fails l).2 = l.filter fails := by
  induction l with
  | nil => rfl
  | cons ws rest ih =>
      simp only [fanOut, List.filter_cons]
      cases h : fails ws <;> simp [h, ih]

theorem mem_of_mem_nsDisconnect (reg : Registry) (pid : String) (ws c : Conn)
    (h : c ∈ connectionsFor (nsDisconnect reg pid ws) pid) :
    c ∈ connectionsFor reg pid ∧ c ≠ ws := by
  cases hr : reg pid with
  | none =>
      have he : nsDisconnect reg pid ws = reg := by
        unfold nsDisconnect; rw [hr]
      rw [he, connectionsFor, hr] at h
      simp at h
  | some conns =>
      have he : nsDisconnect reg pid ws pid =
          (if (conns.filter (fun c => c ≠ ws)).isEmpty then none
           else some (conns.filter (fun c => c ≠ ws))) := by
        unfold nsDisconnect; rw [hr]; simp
      rw [connectionsFor, he] at h
      by_cases hemp : (conns.filter (fun c => c ≠ ws)).isEmpty
      · rw [if_pos hemp] at h
        simp at h
      · rw [if_neg hemp] at h
        simp only [Option.getD_some] at h
        have hm := List.mem_filter.mp h
        constructor
        · rw [connectionsFor, hr]; simpa using hm.1
        · simpa using hm.2

theorem notMem_foldl_nsDisconnect (ds : List Conn) (reg : Registry) (pid : String)
    (c : Conn) (h : c ∉ connectionsFor reg pid) :
    c ∉ connectionsFor (ds.foldl (fun r ws => nsDisconnect r pid ws) reg) pid := by
  induction ds generalizing reg with
  | nil => exact h
  | cons w rest ih =>
      simp only [List.foldl_cons]
      exact ih (nsDisconnect reg pid w) fun hm => h (mem_of_mem_nsDisconnect reg pid w c hm).1

theorem mem_notMem_foldl_nsDisconnect (ds : List Conn) (reg : Registry) (pid : String)
    (c : Conn) (h : c ∈ ds) :
    c ∉ connectionsFor (ds.foldl (fun r ws => nsDisconnect r pid ws) reg) pid := by
  induction ds generalizing reg with
  | nil => simp at h
  | cons w rest ih =>
      simp only [List.foldl_cons]
      rcases List.mem_cons.mp h with hw | hw
      · subst hw
        refine notMem_foldl_nsDisconnect rest (nsDisconnect reg pid c) pid c fun hm => ?_
        exact (mem_of_mem_nsDisconnect reg pid c c hm).2 rfl
      · exact ih (nsDisconnect reg pid w) hw


/-- C1: for every recipient with a registered bucket, `notify_parent`
attempts a send to every registered connection (a failure on one never
aborts the rest: the attempted list is the whole bucket and the delivered
list is exactly the non-failing part of it, in order), and every
connection whose send failed is absent from the bucket when the broadcast
returns. -/
theorem notifyParent_broadcast_ok (reg : Registry) (pid : String) (fails : Conn → Bool)
    (conns : List Conn) (h : reg pid = some conns) :
    (notifyParent reg pid fails).attempted = conns ∧
    (notifyParent reg pid fails).delivered = conns.filter (fun c => !(fails c)) ∧
    ∀ c ∈ conns, fails c = true →
      c ∉ connectionsFor (notifyParent reg pid fails).registry pid := by
  have hn : notifyParent reg pid fails =
      ⟨(fanOut fails conns).2.foldl (fun r ws => nsDisconnect r pid ws) reg, conns,
        (fanOut fails conns).1⟩ := by
    unfold notifyParent; rw [h]
  rw [hn]
  refine ⟨rfl, fanOut_fst fails conns, fun c hc hf => ?_⟩
  exact mem_notMem_foldl_nsDisconnect (fanOut fails conns).2 reg pid c
    (by rw [fanOut_snd]; exact List.mem_filter.mpr ⟨hc, hf⟩)

theorem notifyParent_broadcast_ok_witness :
    (notifyParent regW1 "p1" failsW1).attempted = [1, 2] ∧
    (notifyParent regW1 "p1" failsW1).delivered = [2] ∧
    1 ∉ connectionsFor (notifyParent regW1 "p1" failsW1).registry "p1" := by
  have h := notifyParent_broadcast_ok regW1 "p1" failsW1 [1, 2] rfl
  refine ⟨h.1, ?_, h.2.2 1 (by decide) rfl⟩
  rw [h.2.1]
  decide

theorem nsDisconnect_none (reg : Registry) (pid : String) (ws : Conn)
    (h : reg pid = none) : nsDisconnect reg pid ws = reg := by
  unfold nsDisconnect; rw [h]

theorem nsDisconnect_apply (reg : Registry) (pid : String) (ws : Conn)
    (conns : List Conn) (hr : reg pid = some conns) (q : String) :
    nsDisconnect reg pid ws q =
      if q = pid then
        (if (conns.filter (fun c => c ≠ ws)).isEmpty then none
         else some (conns.filter (fun c => c ≠ ws)))
      else reg q := by
  unfold nsDisconnect; rw [hr]

/-- C7: `disconnect` is idempotent, leaves no empty bucket behind for the
recipient it was called on, and is a no-op on a recipient that has no
bucket; being a total Lean function it raises nothing, matching the
exception-free Python code. -/
theorem nsDisconnect_idempotent_pruned (reg : Registry) (pid : String) (ws : Conn) :
    nsDisconnect (nsDisconnect reg pid ws) pid ws = nsDisconnect reg pid ws ∧
    (nsDisconnect reg pid ws) pid ≠ some [] ∧
    (reg pid = none → nsDisconnect reg pid ws = reg) := by
  refine ⟨?_, ?_, fun h => nsDisconnect_none reg pid ws h⟩
  · cases hr : reg pid with
    | none => rw [nsDisconnect_none reg pid ws hr, nsDisconnect_none reg pid ws hr]
    | some conns =>
        by_cases hemp : (conns.filter (fun c => c ≠ ws)).isEmpty
        · have hp : nsDisconnect reg pid ws pid = none := by
            rw [nsDisconnect_apply reg pid ws conns hr pid, if_pos rfl, if_pos hemp]
          exact nsDisconnect_none _ pid ws hp
        · have hp : nsDisconnect reg pid ws pid = some (conns.filter (fun c => c ≠ ws)) := by
            rw [nsDisconnect_apply reg pid ws conns hr pid, if_pos rfl, if_neg hemp]
          have hself : (conns.filter (fun c => c ≠ ws)).filter (fun c => c ≠ ws) =
              conns.filter (fun c => c ≠ ws) :=
            List.filter_eq_self.mpr fun a ha => (List.mem_filter.mp ha).2
          funext q
          rw [nsDisconnect_apply (nsDisconnect reg pid ws) pid ws _ hp q, hself]
          by_cases hq : q = pid
          · rw [if_pos hq, if_neg hemp, hq, hp]
          · rw [if_neg hq]
  · cases hr : reg pid with
    | none => rw [nsDisconnect_none reg pid ws hr, hr]; simp
    | some conns =>
        rw [nsDisconnect_apply reg pid ws conns hr pid, if_pos rfl]
        by_cases hemp : (conns.filter (fun c => c ≠ ws)).isEmpty
        · rw [if_pos hemp]; simp
        · rw [if_neg hemp]
          simp only [ne_eq, Option.some.injEq]
          intro hnil
          rw [hnil] at hemp
          simp at hemp

theorem nsDisconnect_idempotent_pruned_witness :
    nsDisconnect (nsDisconnect regW1 "p1" 1) "p1" 1 = nsDisconnect regW1 "p1" 1 ∧
    (nsDisconnect regW1 "p1" 1) "p1" ≠ some [] ∧
    nsDisconnect regEmpty "p1" 1 = regEmpty := by
  refine ⟨(nsDisconnect_idempotent_pruned regW1 "p1" 1).1,
    (nsDisconnect_idempotent_pruned regW1 "p1" 1).2.1,
    (nsDisconnect_idempotent_pruned regEmpty "p1" 1).2.2 rfl⟩

/-! ## Lemmas about the signaling state -/

theorem alGet_alSet_self {α : Type} (m : List (String × α)) (k : String) (v : α) :
    alGet (alSet m k v) k = some v := by
  induction m with
  | nil => simp [alSet, alGet]
  | cons p rest ih =>
      obtain ⟨a, b⟩ := p
      by_cases ha : a = k
      · simp [alSet, ha, alGet]
      · simp [alSet, ha, alGet, ih]

theorem alGet_alSet_ne {α : Type} (m : List (String × α)) (k k2 : String) (v : α)
    (h : k2 ≠ k) : alGet (alSet m k v) k2 = alGet m k2 := by
  induction m with
  | nil => simp [alSet, alGet, Ne.symm h]
  | cons p rest ih =>
      obtain ⟨a, b⟩ := p
      by_cases ha : a = k
      · subst ha
        simp [alSet, alGet, Ne.symm h]
      · by_cases ha2 : a = k2
        · simp [alSet, ha, alGet, ha2, h]
        · simp [alSet, ha, alGet, ha2, ih]

theorem alGet_alDel_self {α : Type} (m : List (String × α)) (k : String) :
    alGet (alDel m k) k = none := by
  induction m with
  | nil => simp [alDel, alGet]
  | cons p rest ih =>
      obtain ⟨a, b⟩ := p
      by_cases ha : a = k
      · simpa [alDel, ha] using ih
      · simpa [alDel, alGet, ha] using ih

theorem alGet_alDel_ne {α : Type} (m : List (String × α)) (k k2 : String) (h : k2 ≠ k) :
    alGet (alDel m k) k2 = alGet m k2 := by
  induction m with
  | nil => simp [alDel, alGet]
  | cons p rest ih =>
      obtain ⟨a, b⟩ := p
      by_cases ha : a = k
      · subst ha
        have hne : ¬ (a = k2) := fun he => h he.symm
        have h1 : alDel ((a, b) :: rest) a = alDel rest a := by
          simp [alDel]
        rw [h1, ih]
        simp [alGet, hne]
      · by_cases ha2 : a = k2
        · have : alDel ((a, b) :: rest) k = (a, b) :: alDel rest k := by
            simp [alDel, ha]
          rw [this]
          simp [alGet, ha2]
        · have : alDel ((a, b) :: rest) k = (a, b) :: alDel rest k := by
            simp [alDel, ha]
          rw [this]
          simp [alGet, ha2, ih]

theorem isEmpty_false_of_alGet_some {α : Type} (m : List (String × α)) (k : String)
    (v : α) (h : alGet m k = some v) : m.isEmpty = false := by
  cases m with
  | nil => simp [alGet] at h
  | cons p rest => rfl

theorem ceNotify_of_slot (s : SigConns) (sid other : String) (c : Conn)
    (h : roleSlot s sid other = some c) :
    ceNotify s sid other = [(c, Msg.mk (some "call-ended") none)] := by
  rw [roleSlot] at h
  cases hg : alGet s sid with
  | none => rw [hg] at h; simp at h
  | some rm =>
      rw [hg] at h
      simp at h
      simp [ceNotify, hg, h]

theorem ceNotify_of_none (s : SigConns) (sid other : String)
    (h : roleSlot s sid other = none) : ceNotify s sid other = [] := by
  rw [roleSlot] at h
  cases hg : alGet s sid with
  | none => rw [ceNotify, hg]
  | some rm =>
      rw [hg] at h
      simp at h
      simp [ceNotify, hg, h]

theorem handlerStep_callEnded_unbound (ws : Conn) (sid : String) (s : SigConns) :
    handlerStep ws sid none s (Msg.mk (some "call-ended") none) =
      (none, s, ceNotify s sid "child", true) := rfl

theorem handlerStep_offer_raises (ws : Conn) (sid : String) (s : SigConns) :
    handlerStep ws sid none s (Msg.mk (some "offer") none) =
      (some "child", s, [], true) := rfl

theorem handlerStep_roleMsg_raises (ws : Conn) (sid : String) (s : SigConns)
    (r : String) (h : r ≠ "child") :
    handlerStep ws sid none s (Msg.mk none (some r)) = (some r, s, [], true) := by
  simp [handlerStep, connectChild, connectParent, h]

theorem runLoop_cons (ws : Conn) (sid : String) (role : Option String) (s : SigConns)
    (m : Msg) (ms : List Msg) :
    runLoop ws sid role s (m :: ms) =
      (let st := handlerStep ws sid role s m
       if st.2.2.2 then (st.1, st.2.1, st.2.2.1)
       else
         (let rest := runLoop ws sid st.1 st.2.1 ms
          (rest.1, rest.2.1, st.2.2.1 ++ rest.2.2))) := rfl

/-- C9: a connection whose role is still unbound that sends call-ended is
not dropped as unrecognized: the handler attempts a call-ended
notification to the session child slot if one is bound, terminates its
read loop (any further inbound messages are never processed), and clears
no role slot: the shared state is exactly what it was, and the final
cleanup is skipped because the role variable is still None. -/
theorem unbound_callEnded_notifies_child_and_clears_nothing (s : SigConns) (sid : String)
    (ws : Conn) (rest : List Msg) :
    (runHandler ws sid none s (Msg.mk (some "call-ended") none :: rest)).finalRole = none ∧
    (runHandler ws sid none s (Msg.mk (some "call-ended") none :: rest)).state = s ∧
    (runHandler ws sid none s (Msg.mk (some "call-ended") none :: rest)).sent =
      (match roleSlot s sid "child" with
       | some c => [(c, Msg.mk (some "call-ended") none)]
       | none => []) := by
  have hl : runLoop ws sid none s (Msg.mk (some "call-ended") none :: rest) =
      (none, s, ceNotify s sid "child") := by
    rw [runLoop_cons, handlerStep_callEnded_unbound]
    rfl
  have hr : runHandler ws sid none s (Msg.mk (some "call-ended") none :: rest) =
      ⟨none, s, ceNotify s sid "child"⟩ := by
    rw [runHandler, hl]
    rfl
  rw [hr]
  refine ⟨rfl, rfl, ?_⟩
  cases hslot : roleSlot s sid "child" with
  | none => simpa using ceNotify_of_none s sid "child" hslot
  | some c => simpa using ceNotify_of_slot s sid "child" c hslot

/-- C2: evaluation of the call-end scenario at its intended input.  From
the empty signaling map (the only state the program can reach, since
every binding path raises before assigning a slot), the recipient answer
dies inside `connect_parent` on the second `websocket.accept()` without
binding anything, and the caller offer dies inside `connect_child` the
same way, so the subsequent call-ended relays nothing and there are
never any bound slots to clear. -/
theorem callEnded_scenario_never_binds_or_relays :
    (runHandler 2 "s1" none [] [Msg.mk (some "answer") none]).state = [] ∧
    (runHandler 2 "s1" none [] [Msg.mk (some "answer") none]).sent = [] ∧
    (runHandler 1 "s1" none []
      [Msg.mk (some "offer") none, Msg.mk (some "call-ended") none]).state = [] ∧
    (runHandler 1 "s1" none []
      [Msg.mk (some "offer") none, Msg.mk (some "call-ended") none]).sent = [] := by
  decide

/-- C10 (counterexample to the claim as stated): a first message with the
rogue role attacker makes `connect_parent` raise on its second
`websocket.accept()` before the slot assignment, so the connection is
never bound into the parent slot at all: after the handler finishes the
map is still empty and holds no parent entry, refuting the claimed
unremoved parent-slot binding. -/
theorem rogue_role_never_bound_counterexample :
    roleSlot (runHandler 7 "s1" none [] [Msg.mk none (some "attacker")]).state
      "s1" "parent" = none ∧
    (runHandler 7 "s1" none [] [Msg.mk none (some "attacker")]).state = [] := by
  decide

/-- C10 (amended): a first message carrying an explicit role field that
is neither child nor parent assigns the handler role variable that
string and calls `connect_parent`, whose second `websocket.accept()`
raises before the parent slot assignment: the connection is never bound,
the read loop dies with the shared map unchanged and nothing sent, and
for a session id absent from the map the final cleanup keyed by the
rogue role string is a no-op, so no parent slot entry exists
afterwards. -/
theorem rogue_role_raises_before_bind (s : SigConns) (sid : String) (ws : Conn)
    (r : String) (h1 : r ≠ "child") (_h2 : r ≠ "parent") (hs : alGet s sid = none) :
    (runHandler ws sid none s [Msg.mk none (some r)]).finalRole = some r ∧
    (runHandler ws sid none s [Msg.mk none (some r)]).state = s ∧
    (runHandler ws sid none s [Msg.mk none (some r)]).sent = [] ∧
    roleSlot (runHandler ws sid none s [Msg.mk none (some r)]).state sid "parent"
      = none := by
  have hl : runLoop ws sid none s [Msg.mk none (some r)] = (some r, s, []) := by
    rw [runLoop_cons, handlerStep_roleMsg_raises ws sid s r h1]
    rfl
  have hdisc : sigDisconnect s sid r = s := by
    unfold sigDisconnect
    rw [hs]
  have hfin : runHandler ws sid none s [Msg.mk none (some r)] = ⟨some r, s, []⟩ := by
    rw [runHandler, hl]
    by_cases ht : truthyRole (some r) = true
    · rw [if_pos ht, Option.getD_some, hdisc]
    · rw [if_neg ht]
  rw [hfin]
  refine ⟨rfl, rfl, rfl, ?_⟩
  rw [roleSlot, hs]
  rfl

theorem rogue_role_raises_before_bind_witness :
    (runHandler 7 "s1" none [] [Msg.mk none (some "attacker")]).finalRole
      = some "attacker" ∧
    (runHandler 7 "s1" none [] [Msg.mk none (some "attacker")]).state = [] ∧
    (runHandler 7 "s1" none [] [Msg.mk none (some "attacker")]).sent = [] ∧
    roleSlot (runHandler 7 "s1" none [] [Msg.mk none (some "attacker")]).state
      "s1" "parent" = none :=
  rogue_role_raises_before_bind [] "s1" 7 "attacker" (by decide) (by decide) rfl

/-! ## Theorems about the severity pipeline -/

theorem determineAlertLevel_eq_spec (sa : SafetyAnalysis) (u c : Bool) :
    determineAlertLevel sa u c = severityMapSpec u c (sa.concern_level.getD "none") := rfl

/-- C4: for every classifier output and every combination of the two
keyword flags, `_determine_alert_level` computes exactly the first-match
severity precedence stated by the specification (urgent keyword or
critical gives emergency; else high gives urgent; else medium or a
concern keyword gives warning; else low gives info; otherwise info),
applied to the concern level string with default none. -/
theorem severity_mapping_follows_spec_precedence (sa : SafetyAnalysis) (u c : Bool) :
    determineAlertLevel sa u c = severityMapSpec u c (sa.concern_level.getD "none") := rfl

theorem severityMapSpec_mono_aux :
    ∀ (A B : ConcernLevel) (u c : Bool), A.rank < B.rank →
      (severityMapSpec u c A.toStr).rank ≤ (severityMapSpec u c B.toStr).rank := by
  decide

/-- C6: the severity mapping is monotone in the classifier concern level:
with identical keyword flags, a strictly higher concern level in the
order none < low < medium < high < critical never maps to a strictly
lower severity in the order info < warning < urgent < emergency. -/
theorem severity_monotone_in_concern_level (sa1 sa2 : SafetyAnalysis)
    (A B : ConcernLevel) (u c : Bool) (h1 : sa1.concern_level = some A.toStr)
    (h2 : sa2.concern_level = some B.toStr) (hlt : A.rank < B.rank) :
    (determineAlertLevel sa1 u c).rank ≤ (determineAlertLevel sa2 u c).rank := by
  rw [determineAlertLevel_eq_spec, determineAlertLevel_eq_spec, h1, h2]
  simpa using severityMapSpec_mono_aux A B u c hlt

theorem severity_monotone_in_concern_level_witness :
    (determineAlertLevel ⟨none, some "low", none, none, none⟩ false false).rank ≤
      (determineAlertLevel ⟨none, some "medium", none, none, none⟩ false false).rank :=
  severity_monotone_in_concern_level ⟨none, some "low", none, none, none⟩
    ⟨none, some "medium", none, none, none⟩ ConcernLevel.low ConcernLevel.medium
    false false rfl rfl (by decide)

/-- C5: an Alert object is instantiated if and only if the classifier
output requested a parent alert or the mapped severity is not info, and
every instantiated alert has requires action set exactly when its level
is urgent or emergency. -/
theorem alert_iff_parent_alert_or_above_info (m ai : String) (o : ClassifierOutcome) :
    ((assessMessageSafety m o ai).alert.isSome ↔
      ((analyzeSafety o).parent_alert = some true ∨
        determineAlertLevel (analyzeSafety o) (hasUrgentKeyword (strLower m))
          (hasConcernKeyword (strLower m)) ≠ AlertLevel.info)) ∧
    (∀ a : SafetyAlert, (assessMessageSafety m o ai).alert = some a →
      (a.requires_action = true ↔
        (a.level = AlertLevel.urgent ∨ a.level = AlertLevel.emergency))) := by
  constructor
  · by_cases hcond : ((analyzeSafety o).parent_alert = some true ∨
        determineAlertLevel (analyzeSafety o) (hasUrgentKeyword (strLower m))
          (hasConcernKeyword (strLower m)) ≠ AlertLevel.info)
    · simp [assessMessageSafety, hcond]
    · simp [assessMessageSafety, hcond]
  · intro a ha
    by_cases hcond : ((analyzeSafety o).parent_alert = some true ∨
        determineAlertLevel (analyzeSafety o) (hasUrgentKeyword (strLower m))
          (hasConcernKeyword (strLower m)) ≠ AlertLevel.info)
    · simp only [assessMessageSafety] at ha
      rw [if_pos hcond] at ha
      have hrec := (Option.some.injEq _ _).mp ha
      rw [← hrec]
      simp
    · simp [assessMessageSafety, hcond] at ha

theorem alert_iff_parent_alert_or_above_info_witness :
    (assessMessageSafety "hi" okParentAlert "a").alert.isSome = true :=
  (alert_iff_parent_alert_or_above_info "hi" "a" okParentAlert).1.mpr (Or.inl rfl)

/-- C3 (counterexample to the claim as stated): the message
"emergency" with a failing classifier call still contains an urgent
keyword, so the assessment instantiates an Alert with severity emergency
and requires action true, not severity info and requires action false. -/
theorem classifier_failure_keyword_emergency_counterexample :
    (assessMessageSafety "emergency" ClassifierOutcome.callFailure "a").alert.map
      SafetyAlert.level = some AlertLevel.emergency ∧
    (assessMessageSafety "emergency" ClassifierOutcome.callFailure "a").alert.map
      SafetyAlert.requires_action = some true := by
  decide

/-- C3 (amended): when the classifier call fails in either way, the safe
default (is safe true, concern level none, no parent alert request) is
substituted without raising, and any Alert instantiated for the message
then derives solely from the keyword checks: an urgent keyword gives an
emergency alert with requires action true, else a concern keyword gives a
warning alert with requires action false, else no alert at all. -/
theorem classifier_failure_fallback (m ai : String) (o : ClassifierOutcome)
    (h : o.failed = true) :
    (assessMessageSafety m o ai).is_safe = true ∧
    (assessMessageSafety m o ai).concern_level = "none" ∧
    (assessMessageSafety m o ai).alert.map SafetyAlert.level =
      (if hasUrgentKeyword (strLower m) then some AlertLevel.emergency
       else if hasConcernKeyword (strLower m) then some AlertLevel.warning
       else none) ∧
    (assessMessageSafety m o ai).alert.map SafetyAlert.requires_action =
      (if hasUrgentKeyword (strLower m) then some true
       else if hasConcernKeyword (strLower m) then some false
       else none) := by
  cases o with
  | ok d => simp [ClassifierOutcome.failed] at h
  | parseFailure =>
      by_cases hu : hasUrgentKeyword (strLower m) <;>
        by_cases hc : hasConcernKeyword (strLower m) <;>
          simp [assessMessageSafety, analyzeSafety, jsonFallback, determineAlertLevel,
            hu, hc]
  | callFailure =>
      by_cases hu : hasUrgentKeyword (strLower m) <;>
        by_cases hc : hasConcernKeyword (strLower m) <;>
          simp [assessMessageSafety, analyzeSafety, errorFallback, determineAlertLevel,
            hu, hc]

theorem classifier_failure_fallback_witness :
    (assessMessageSafety "hello" ClassifierOutcome.parseFailure "a").is_safe = true ∧
    (assessMessageSafety "hello" ClassifierOutcome.parseFailure "a").concern_level
      = "none" :=
  ⟨(classifier_failure_fallback "hello" "a" ClassifierOutcome.parseFailure rfl).1,
   (classifier_failure_fallback "hello" "a" ClassifierOutcome.parseFailure rfl).2.1⟩
